import Mathlib

/-!
Verification development for the rescue-connect repository.

The definitions below are shallow embeddings of the JavaScript client code
(simulator and authority dashboard), the SQL schema migrations, and - where
the Python ML backend is absent from the source tree - models built from the
specification, marked as such in their doc comments.
-/

/-- Outcome of a `fetch` call as observed by the API clients: the network layer
rejects (`netError`), the server answers with a non-OK status whose parsed JSON
error detail may be present (`httpError`), or the call succeeds and the body
parses to `β` (`success`). -/
inductive FetchOutcome (β : Type) where
  | netError (msg : String)
  | httpError (detail : Option String)
  | success (body : β)
deriving DecidableEq

/-- A fetch outcome that is a failure of the call itself (network rejection or
non-OK response). -/
def FetchOutcome.isFailure {β : Type} : FetchOutcome β → Bool
  | .success _ => false
  | _ => true

/-- An existing post surfaced by the backend when a duplicate is found
(fields read by the frontends: id, status, disaster_type, location). -/
structure ExistingPost where
  id : String
  status : String
  disaster_type : Option String
  location : Option String
deriving DecidableEq

/-- Parsed body of a `/check-duplicate` response as consumed by both clients. -/
structure DupCheckResult where
  is_duplicate : Bool
  message : String
  error : Option String
  existing_post : Option ExistingPost
deriving DecidableEq

/-- The fail-open result built by the simulator client when the duplicate check
fails (simulator `mlApi.checkDuplicate`, catch branch). -/
def failOpenDuplicate (errMsg : String) : DupCheckResult :=
  { is_duplicate := false
    message := "Could not check for duplicates"
    error := some errMsg
    existing_post := none }

/-- Simulator client `mlApi.checkDuplicate`: wraps the fetch in try/catch; a
non-OK response throws `err.detail` (or a fixed message) inside the try, and
the catch converts every thrown error into the fail-open result. Total: never
propagates an error. -/
def simulatorCheckDuplicate (o : FetchOutcome DupCheckResult) : DupCheckResult :=
  match o with
  | .success body => body
  | .httpError detail => failOpenDuplicate (detail.getD "Duplicate check failed")
  | .netError msg => failOpenDuplicate msg

/-- Authority dashboard client `mlApi.checkDuplicate`: no try/catch; a non-OK
response throws `err.detail` (or a fixed message) and a network failure
propagates, so the result is either the parsed body or a thrown error. -/
def authorityCheckDuplicate (o : FetchOutcome DupCheckResult) :
    Except String DupCheckResult :=
  match o with
  | .success body => .ok body
  | .httpError detail => .error (detail.getD "Duplicate check failed")
  | .netError msg => .error msg

/-- Parsed body of an `/analyze` response (fields used by the clients). -/
structure AnalysisResult where
  is_disaster : Bool
  disaster_type : String
  error : Option String
deriving DecidableEq

/-- Simulator client `mlApi.analyzeImage`: try/catch around the fetch; on any
thrown error it returns the fail-open default that allows posting. -/
def simulatorAnalyzeImage (o : FetchOutcome AnalysisResult) : AnalysisResult :=
  match o with
  | .success body => body
  | .httpError detail =>
      { is_disaster := true, disaster_type := "unknown"
        error := some (detail.getD "Analysis failed") }
  | .netError msg =>
      { is_disaster := true, disaster_type := "unknown", error := some msg }

/-- Authority dashboard client `mlApi.analyzeImage`: no try/catch; a non-OK
response throws a fixed message and a network failure propagates. -/
def authorityAnalyzeImage (o : FetchOutcome AnalysisResult) :
    Except String AnalysisResult :=
  match o with
  | .success body => .ok body
  | .httpError _ => .error "Analysis failed"
  | .netError msg => .error msg

/-- Request body sent to `/check-duplicate` by either client. -/
structure DupCheckRequest where
  image_url : String
  hours_window : Nat
deriving DecidableEq

/-- Default value of the `hoursWindow` parameter in both clients. -/
def hoursWindowDefault : Nat := 2

/-- Request built by the simulator client `checkDuplicate(imageUrl, hoursWindow = 2)`:
an omitted window argument is modelled as `none` and replaced by the default. -/
def simulatorCheckDuplicateRequest (imageUrl : String) (hoursWindow : Option Nat) :
    DupCheckRequest :=
  { image_url := imageUrl, hours_window := hoursWindow.getD hoursWindowDefault }

/-- Request built by the authority client `checkDuplicate(imageUrl, hoursWindow = 2)`. -/
def authorityCheckDuplicateRequest (imageUrl : String) (hoursWindow : Option Nat) :
    DupCheckRequest :=
  { image_url := imageUrl, hours_window := hoursWindow.getD hoursWindowDefault }

/-- Outcome of the authority dashboard `processWithAI` handler: a duplicate
alert is shown and processing stops, `mlApi.processPost` is invoked, the full
pipeline `mlApi.processPostFull` is invoked, or a caught error is alerted. -/
inductive AIProcessOutcome where
  | duplicateAlert (message : String) (existingPostId : String)
  | processedPost
  | processedPostFull
  | failedWithError (msg : String)
deriving DecidableEq

/-- Authority dashboard `processWithAI(postId, imageUrl, skipDupCheck = false)`:
when the check is not skipped and an image URL is present it calls the authority
client `checkDuplicate`; if that throws, the catch alerts the error; if a
duplicate with an existing post is reported, it records a duplicate alert and
returns without processing; otherwise it calls `mlApi.processPost`. -/
def processWithAI (imageUrl : Option String) (skipDupCheck : Bool)
    (dupOutcome : FetchOutcome DupCheckResult) : AIProcessOutcome :=
  if skipDupCheck = false ∧ imageUrl.isSome then
    match authorityCheckDuplicate dupOutcome with
    | .error m => .failedWithError m
    | .ok dup =>
        match dup.existing_post with
        | some ep =>
            if dup.is_duplicate then .duplicateAlert dup.message ep.id
            else .processedPost
        | none => .processedPost
  else .processedPost

/-- The Process Anyway button in the duplicate alert: dismisses the alert and
invokes `mlApi.processPost` or `mlApi.processPostFull` unconditionally,
according to which button originally triggered the check. -/
def processAnywayOutcome (processType : String) : AIProcessOutcome :=
  if processType = "ai" then .processedPost else .processedPostFull

/-- Media type of the selected file in the simulator upload form. -/
inductive MediaType where
  | image
  | video
deriving DecidableEq

/-- The string stored in the media_type column for a given media kind. -/
def MediaType.toDbString : MediaType → String
  | .image => "image"
  | .video => "video"

/-- The insert object built by the simulator `insertPost` (fields sent to the
posts table). -/
structure InsertData where
  image_url : String
  caption : String
  status : String
  media_type : String
  location : Option String
deriving DecidableEq

/-- Caption built by `insertPost`: the selected disaster type label, when any,
is prefixed in brackets. -/
def buildCaption (disasterLabel : Option String) (caption : String) : String :=
  (match disasterLabel with
   | some l => "[" ++ l ++ "] "
   | none => "") ++ caption

/-- The record inserted by the simulator `insertPost`: status starts as
pending, the media type is recorded, and the location is included only when
the user entered a non-blank value other than the placeholder. -/
def insertPostData (imageUrl : String) (disasterLabel : Option String)
    (caption : String) (location : String) (media : MediaType) : InsertData :=
  { image_url := imageUrl
    caption := buildCaption disasterLabel caption
    status := "pending"
    media_type := media.toDbString
    location :=
      if location ≠ "" ∧ location.trim ≠ "" ∧ location ≠ "Location unavailable"
      then some location else none }

/-- Outcome of the simulator `handleUpload` after the media file has been
stored: either the upload halts on a duplicate warning, or the post row is
inserted. -/
inductive UploadOutcome where
  | haltedDuplicate (message : String)
  | inserted (d : InsertData)
deriving DecidableEq

/-- Simulator `handleUpload` (after storage upload succeeded): only for images
it invokes the simulator client `checkDuplicate`; if that reports a duplicate
the upload stops with a warning and waits for the user; otherwise (and always
for videos) the post is inserted. The first component records whether the
duplicate check was invoked. -/
def handleUpload (media : MediaType) (imageUrl : String)
    (dupOutcome : FetchOutcome DupCheckResult) (disasterLabel : Option String)
    (caption location : String) : Bool × UploadOutcome :=
  match media with
  | .video =>
      (false, .inserted (insertPostData imageUrl disasterLabel caption location .video))
  | .image =>
      let dup := simulatorCheckDuplicate dupOutcome
      (true,
        if dup.is_duplicate then .haltedDuplicate dup.message
        else .inserted (insertPostData imageUrl disasterLabel caption location .image))

/-- The Post Anyway button shown with the duplicate warning: inserts the post
unconditionally with the already-uploaded image URL. -/
def handlePostAnyway (imageUrl : String) (disasterLabel : Option String)
    (caption location : String) (media : MediaType) : UploadOutcome :=
  .inserted (insertPostData imageUrl disasterLabel caption location media)

/-- Dispatch workflow status of a post (authority DispatchView). -/
inductive DispatchStatus where
  | pending
  | assigned
  | inProgress
  | resolved
deriving DecidableEq

/-- VALID_TRANSITIONS table of DispatchView.jsx. -/
def validTransitions : DispatchStatus → List DispatchStatus
  | .pending => [.assigned]
  | .assigned => [.inProgress, .pending]
  | .inProgress => [.resolved, .assigned]
  | .resolved => []

/-- DispatchView `getNextStatuses(currentStatus)`: a null status defaults to
pending, and the offered options are the current status followed by its valid
transitions. -/
def getNextStatuses (current : Option DispatchStatus) : List DispatchStatus :=
  let s := current.getD .pending
  s :: validTransitions s

/-- Request body sent by the authority client `updateDispatch(postId,
dispatchStatus, assignedTeam)`: exactly these three fields. -/
structure UpdateDispatchBody where
  post_id : String
  dispatch_status : String
  assigned_team : String
deriving DecidableEq

/-- Body builder of `mlApi.updateDispatch`, which accepts three parameters. -/
def updateDispatchBody (postId dispatchStatus assignedTeam : String) :
    UpdateDispatchBody :=
  { post_id := postId, dispatch_status := dispatchStatus, assigned_team := assignedTeam }

/-- JSON serialization of the update-dispatch request body as key/value pairs. -/
def serializeUpdateDispatch (b : UpdateDispatchBody) : List (String × String) :=
  [("post_id", b.post_id), ("dispatch_status", b.dispatch_status),
   ("assigned_team", b.assigned_team)]

/-- DispatchView `confirmResolve`: calls `mlApi.updateDispatch` with four
arguments (post id, the literal resolved status, the assigned team, and the
resolution notes); the client function has only three parameters, so the
fourth argument does not reach the request body. -/
def confirmResolveRequest (postId assignedTeam resolutionNotes : String) :
    UpdateDispatchBody :=
  updateDispatchBody postId "resolved" assignedTeam

/-- Modelled from the spec: the backend update-dispatch handler (ml_backend
main.py is not present under src/) accepts an optional resolution_notes field
and leaves fields absent from the request unchanged on the stored row. -/
structure DispatchRow where
  dispatch_status : String
  assigned_team : String
  resolution_notes : Option String
deriving DecidableEq

/-- Modelled from the spec: wire format of an update-dispatch request as the
backend reads it, the three client fields plus an optional resolution_notes. -/
structure UpdateDispatchWire where
  core : UpdateDispatchBody
  resolution_notes : Option String
deriving DecidableEq

/-- The wire request produced from the authority client body: the client body
has no notes field, so the optional field is absent. -/
def clientWire (b : UpdateDispatchBody) : UpdateDispatchWire :=
  { core := b, resolution_notes := none }

/-- Modelled from the spec: the backend applies an update-dispatch request to
the stored row, writing resolution_notes only when the request carries it. -/
def applyUpdateDispatch (row : DispatchRow) (w : UpdateDispatchWire) : DispatchRow :=
  { dispatch_status := w.core.dispatch_status
    assigned_team := w.core.assigned_team
    resolution_notes :=
      match w.resolution_notes with
      | some n => some n
      | none => row.resolution_notes }

/-- Modelled from the spec: the urgency term list of the text classifier
(ml_backend disaster_classifier.py is not present under src/), lowercased. -/
def URGENCY_TERMS : List String :=
  ["urgent", "help", "sos", "trapped", "rescue", "injured", "dead", "dying",
   "emergency", "critical", "blood", "ambulance"]

/-- Number of distinct urgency terms present in the tokenized text: each term
of the fixed list counts at most once however often it occurs. -/
def urgencyTermCount (tokens : List String) : Nat :=
  (URGENCY_TERMS.filter (fun t => tokens.contains t)).length

/-- Modelled from the spec: the text classifier urgency score, 0.2 per distinct
urgency term found, capped at 1.0. -/
def calculateUrgency (tokens : List String) : ℚ :=
  min ((urgencyTermCount tokens : ℚ) * (2 / 10)) 1

/-- A persisted post row as far as the urgency display is concerned: the
urgency_score column of the posts table is an SQL integer. -/
structure PostRecord where
  id : String
  urgency_score : Int
  is_disaster : Option Bool
  status : String
deriving DecidableEq

/-- Column declaration from the migration adding ML analysis columns. -/
structure ColumnDef where
  colName : String
  sqlType : String
  defaultValue : Int
deriving DecidableEq

/-- The posts.urgency_score column as declared by the migration:
integer with default 0. -/
def urgencyScoreColumn : ColumnDef :=
  { colName := "urgency_score", sqlType := "integer", defaultValue := 0 }

/-- The urgent_posts view condition of the migration: is_disaster true and
urgency_score at least 7. -/
def urgentPostsCondition (p : PostRecord) : Bool :=
  (p.is_disaster == some true) && decide (7 ≤ p.urgency_score)

/-- The urgency badge rendered by PostsTable: shown when the score is positive,
as the score over a 10-point scale. -/
def urgencyBadge (p : PostRecord) : Option String :=
  if 0 < p.urgency_score
  then some ("Urgency: " ++ toString p.urgency_score ++ "/10")
  else none

/-- A concrete analysed post as the backend persists it (vision urgency 8). -/
def examplePost : PostRecord :=
  { id := "post-42", urgency_score := 8, is_disaster := some true, status := "urgent" }

/-- Insert an element into a list sorted in descending key order. -/
def insertDesc {α : Type} (key : α → Nat) (a : α) : List α → List α
  | [] => [a]
  | b :: bs => if key b < key a then a :: b :: bs else b :: insertDesc key a bs

/-- Sort a list in descending key order (models both the candidate ordering by
specificity and the created_at descending order of database queries). -/
def sortDesc {α : Type} (key : α → Nat) : List α → List α
  | [] => []
  | a :: as => insertDesc key a (sortDesc key as)

/-- A row of the posts table as read by the map view. -/
structure PostRow where
  id : Nat
  status : String
  inferred_latitude : Option ℚ
  inferred_longitude : Option ℚ
  created_at : Nat
deriving DecidableEq

/-- Filter applied by the MapView query: both inferred coordinates non-null,
and the status filter when one is selected. -/
def geolocatedPred (filter : String) (p : PostRow) : Bool :=
  p.inferred_latitude.isSome && p.inferred_longitude.isSome &&
    (filter == "all" || p.status == filter)

/-- MapView `fetchGeolocatedPosts`: select rows with non-null coordinates and
matching status, order by created_at descending, limit 100. -/
def fetchGeolocatedPosts (table : List PostRow) (filter : String) : List PostRow :=
  (sortDesc (fun p => p.created_at) (table.filter (geolocatedPred filter))).take 100

/-- The position arrays handed to the markers and to fitBounds: one latitude,
longitude pair per fetched post. -/
def markerPositions (posts : List PostRow) : List (Option ℚ × Option ℚ) :=
  posts.map (fun p => (p.inferred_latitude, p.inferred_longitude))

/-- Modelled from the spec: the method label of a resolved location
(geo_pipeline.py is not present under src/); named after spec section 4.3. -/
inductive LocMethod where
  | deviceGps
  | ocrCaption
  | captionOnly
  | imageContext
  | noLocation
deriving DecidableEq

/-- Modelled from the spec: a candidate place-name string with its provenance
and a specificity rank used for ordering. -/
structure LocationCandidate where
  text : String
  fromOcr : Bool
  fromScene : Bool
  specificity : Nat
deriving DecidableEq

/-- Modelled from the spec: a geocode result with the base confidence derived
from its result-type specificity and whether the scene hint matches it. -/
structure GeocodeHit where
  lat : ℚ
  lon : ℚ
  displayName : String
  baseConfidence : ℚ
  sceneMatches : Bool
deriving DecidableEq

/-- Modelled from the spec: the inputs to the location resolver, the optional
device coordinates and the text-derived candidates. -/
structure GeoReport where
  gps : Option (ℚ × ℚ)
  candidates : List LocationCandidate
deriving DecidableEq

/-- Modelled from the spec: the resolved location output record. -/
structure ResolvedLocation where
  lat : ℚ
  lon : ℚ
  confidence : ℚ
  isAmbiguous : Bool
  method : LocMethod
  displayName : Option String
deriving DecidableEq

/-- The maximum confidence attainable anywhere in the pipeline. -/
def maxPipelineConfidence : ℚ := 1

/-- Clamp a rational to the unit interval. -/
def clamp01 (x : ℚ) : ℚ := min 1 (max 0 x)

/-- Modelled from the spec: the method label assigned to a text-derived
resolution, by candidate provenance. -/
def candidateMethod (c : LocationCandidate) : LocMethod :=
  if c.fromScene then .imageContext
  else if c.fromOcr then .ocrCaption
  else .captionOnly

/-- Modelled from the spec: first-match-wins walk over the ordered candidates;
the first geocode success yields the location, base confidence plus the scene
bonus of 0.15 clamped to the unit interval, ambiguous below 0.6; if no
candidate geocodes the method is none with confidence 0. -/
def resolveFromCandidates (geocode : String → Option GeocodeHit) :
    List LocationCandidate → ResolvedLocation
  | [] =>
      { lat := 0, lon := 0, confidence := 0, isAmbiguous := true,
        method := .noLocation, displayName := none }
  | c :: rest =>
      match geocode c.text with
      | some hit =>
          let conf := clamp01 (hit.baseConfidence +
            (if hit.sceneMatches then 15 / 100 else 0))
          { lat := hit.lat, lon := hit.lon, confidence := conf,
            isAmbiguous := decide (conf < 6 / 10), method := candidateMethod c,
            displayName := some hit.displayName }
      | none => resolveFromCandidates geocode rest

/-- Modelled from the spec: the location resolver; device coordinates, when
present, are emitted directly with method device-gps and maximal confidence,
optionally enriched with a reverse-geocoded display name; otherwise the sorted
text candidates are tried in specificity order. -/
def resolveLocation (geocode : String → Option GeocodeHit)
    (reverseGeocodeName : Option String) (r : GeoReport) : ResolvedLocation :=
  match r.gps with
  | some (la, lo) =>
      { lat := la, lon := lo, confidence := maxPipelineConfidence,
        isAmbiguous := false, method := .deviceGps,
        displayName := reverseGeocodeName }
  | none =>
      resolveFromCandidates geocode (sortDesc (fun c => c.specificity) r.candidates)

/-- A concrete report carrying device coordinates and a text candidate. -/
def exampleGpsReport : GeoReport :=
  { gps := some (129716 / 10000, 775946 / 10000)
    candidates := [{ text := "Silk Board", fromOcr := false, fromScene := false,
                     specificity := 2 }] }

theorem candidateMethod_ne_gps (c : LocationCandidate) :
    candidateMethod c ≠ LocMethod.deviceGps := by
  unfold candidateMethod
  split
  · simp
  · split <;> simp

theorem resolveFromCandidates_method_ne_gps (geocode : String → Option GeocodeHit)
    (l : List LocationCandidate) :
    (resolveFromCandidates geocode l).method ≠ LocMethod.deviceGps := by
  induction l with
  | nil => simp [resolveFromCandidates]
  | cons c rest ih =>
      cases hg : geocode c.text with
      | some hit =>
          simp only [resolveFromCandidates, hg]
          exact candidateMethod_ne_gps c
      | none =>
          simp only [resolveFromCandidates, hg]
          exact ih

theorem resolveFromCandidates_conf_le (geocode : String → Option GeocodeHit)
    (l : List LocationCandidate) :
    (resolveFromCandidates geocode l).confidence ≤ maxPipelineConfidence := by
  induction l with
  | nil =>
      simp [resolveFromCandidates, maxPipelineConfidence]
  | cons c rest ih =>
      cases hg : geocode c.text with
      | some hit =>
          simp only [resolveFromCandidates, hg]
          exact min_le_left _ _
      | none =>
          simp only [resolveFromCandidates, hg]
          exact ih

theorem mem_insertDesc {α : Type} (key : α → Nat) (a x : α) (l : List α) :
    x ∈ insertDesc key a l ↔ x = a ∨ x ∈ l := by
  induction l with
  | nil => simp [insertDesc]
  | cons b bs ih =>
      simp only [insertDesc]
      split
      · simp
      · simp [ih]
        tauto

theorem mem_sortDesc {α : Type} (key : α → Nat) (x : α) (l : List α) :
    x ∈ sortDesc key l ↔ x ∈ l := by
  induction l with
  | nil => simp [sortDesc]
  | cons a as ih => simp [sortDesc, mem_insertDesc, ih]

/-- Claim C1, as stated, is false: the authority dashboard client also invokes
the duplicate check, and there a network failure is propagated to the caller
as a thrown error instead of a fail-open result. -/
theorem C1_counterexample :
    authorityCheckDuplicate (FetchOutcome.netError "Failed to fetch")
      = Except.error "Failed to fetch" := rfl

/-- Claim C1 (amended): for every invocation of the simulator client duplicate
check, a failure of the check itself (backend unreachable or non-OK response)
yields the fail-open result with is_duplicate false and the explanatory
message, never an error to the caller; the authority dashboard client instead
propagates check failures as thrown errors. -/
theorem C1_simulator_duplicate_check_fail_open (o : FetchOutcome DupCheckResult)
    (h : o.isFailure = true) :
    (simulatorCheckDuplicate o).is_duplicate = false ∧
    (simulatorCheckDuplicate o).message = "Could not check for duplicates" := by
  cases o with
  | success b => simp [FetchOutcome.isFailure] at h
  | httpError d => exact ⟨rfl, rfl⟩
  | netError m => exact ⟨rfl, rfl⟩

/-- Witness for the amended claim C1 at a concrete network failure. -/
theorem C1_simulator_duplicate_check_fail_open_witness :
    (FetchOutcome.netError "Failed to fetch" : FetchOutcome DupCheckResult).isFailure = true ∧
    ((simulatorCheckDuplicate (FetchOutcome.netError "Failed to fetch")).is_duplicate = false ∧
     (simulatorCheckDuplicate (FetchOutcome.netError "Failed to fetch")).message
        = "Could not check for duplicates") :=
  ⟨rfl, C1_simulator_duplicate_check_fail_open (FetchOutcome.netError "Failed to fetch") rfl⟩

/-- A duplicate-check response reporting a duplicate with an existing post. -/
def dupFoundExample : DupCheckResult :=
  { is_duplicate := true
    message := "Similar image reported 30 minutes ago"
    error := none
    existing_post := some { id := "post-123", status := "verified",
                            disaster_type := some "flood",
                            location := some "Silk Board" } }

/-- Claim C2, as stated, is false: at both call sites a found duplicate stops
the pipeline; processWithAI records the alert and returns without invoking
processPost, and handleUpload halts without inserting the post. -/
theorem C2_counterexample :
    processWithAI (some "https://cdn.example/img1.jpg") false
        (FetchOutcome.success dupFoundExample)
      = AIProcessOutcome.duplicateAlert "Similar image reported 30 minutes ago" "post-123" ∧
    processWithAI (some "https://cdn.example/img1.jpg") false
        (FetchOutcome.success dupFoundExample) ≠ AIProcessOutcome.processedPost ∧
    (handleUpload MediaType.image "https://cdn.example/img1.jpg"
        (FetchOutcome.success dupFoundExample) none "flood at junction" "").snd
      = UploadOutcome.haltedDuplicate "Similar image reported 30 minutes ago" := by
  refine ⟨rfl, by decide, rfl⟩

/-- Claim C2 (amended): when the duplicate check finds a duplicate, both call
sites halt instead of proceeding - processWithAI surfaces a duplicate alert
and skips processing, handleUpload stops before inserting - and analysis or
posting proceeds only through the explicit user override buttons, which invoke
processing and insertion unconditionally. -/
theorem C2_duplicate_blocks_until_override (url : String) (dup : DupCheckResult)
    (label : Option String) (caption location : String)
    (hdup : dup.is_duplicate = true) (hex : dup.existing_post.isSome = true) :
    (∃ epId, processWithAI (some url) false (FetchOutcome.success dup)
        = AIProcessOutcome.duplicateAlert dup.message epId) ∧
    processWithAI (some url) false (FetchOutcome.success dup)
        ≠ AIProcessOutcome.processedPost ∧
    (handleUpload MediaType.image url (FetchOutcome.success dup) label caption location).snd
        = UploadOutcome.haltedDuplicate dup.message ∧
    processAnywayOutcome "ai" = AIProcessOutcome.processedPost ∧
    handlePostAnyway url label caption location MediaType.image
        = UploadOutcome.inserted (insertPostData url label caption location MediaType.image) := by
  cases hep : dup.existing_post with
  | none => rw [hep] at hex; simp at hex
  | some ep =>
      refine ⟨⟨ep.id, ?_⟩, ?_, ?_, rfl, rfl⟩
      · simp [processWithAI, authorityCheckDuplicate, hep, hdup]
      · simp [processWithAI, authorityCheckDuplicate, hep, hdup]
      · simp [handleUpload, simulatorCheckDuplicate, hdup]

/-- Witness for the amended claim C2 at a concrete duplicate response. -/
theorem C2_duplicate_blocks_until_override_witness :
    dupFoundExample.is_duplicate = true ∧
    dupFoundExample.existing_post.isSome = true ∧
    (∃ epId, processWithAI (some "https://cdn.example/img1.jpg") false
        (FetchOutcome.success dupFoundExample)
        = AIProcessOutcome.duplicateAlert dupFoundExample.message epId) :=
  ⟨rfl, rfl,
   (C2_duplicate_blocks_until_override "https://cdn.example/img1.jpg" dupFoundExample
      none "flood at junction" "" rfl rfl).1⟩

/-- Claim C3, as stated, is false: the persisted urgency_score is an SQL
integer on a 0-10 scale, displayed by the dashboard as a score out of 10, and
the urgent_posts view filters on a threshold of 7 - a record with score 8 is
well outside the claimed 0.0-1.0 range. -/
theorem C3_counterexample :
    urgencyBadge examplePost = some "Urgency: 8/10" ∧
    urgentPostsCondition examplePost = true ∧
    ¬(examplePost.urgency_score ≤ 1) := by decide

/-- Claim C3 (amended): the text classifier urgency sub-score is 0.2 per
distinct urgency term capped at 1.0 and stays within 0.0-1.0, but the
persisted posts.urgency_score column is an integer (default 0) on a 0-10
scale, and the dashboard displays it over 10. -/
theorem C3_urgency_two_scales (tokens : List String) (p : PostRecord)
    (hp : 0 < p.urgency_score) :
    0 ≤ calculateUrgency tokens ∧ calculateUrgency tokens ≤ 1 ∧
    calculateUrgency tokens = min ((urgencyTermCount tokens : ℚ) * (2 / 10)) 1 ∧
    (5 ≤ urgencyTermCount tokens → calculateUrgency tokens = 1) ∧
    urgencyScoreColumn.sqlType = "integer" ∧
    urgencyScoreColumn.defaultValue = 0 ∧
    urgencyBadge p = some ("Urgency: " ++ toString p.urgency_score ++ "/10") := by
  refine ⟨?_, ?_, rfl, ?_, rfl, rfl, ?_⟩
  · have h0 : (0 : ℚ) ≤ (urgencyTermCount tokens : ℚ) * (2 / 10) := by positivity
    exact le_min h0 zero_le_one
  · exact min_le_right _ _
  · intro h5
    have hc : (5 : ℚ) ≤ (urgencyTermCount tokens : ℚ) := by exact_mod_cast h5
    have h1 : (1 : ℚ) ≤ (urgencyTermCount tokens : ℚ) * (2 / 10) := by nlinarith
    simp only [calculateUrgency]
    exact min_eq_right h1
  · simp [urgencyBadge, hp]

/-- Tokens of a caption mentioning six distinct urgency terms. -/
def exampleTokens : List String :=
  ["flood", "trapped", "sos", "urgent", "injured", "dying", "help"]

/-- Witness for the amended claim C3 at a concrete token list and record. -/
theorem C3_urgency_two_scales_witness :
    0 < examplePost.urgency_score ∧
    calculateUrgency exampleTokens ≤ 1 ∧
    urgencyBadge examplePost
      = some ("Urgency: " ++ toString examplePost.urgency_score ++ "/10") :=
  ⟨by decide, (C3_urgency_two_scales exampleTokens examplePost (by decide)).2.1,
   (C3_urgency_two_scales exampleTokens examplePost (by decide)).2.2.2.2.2.2⟩

/-- Claim C4: the dispatch status machine offers, for every status, exactly
the current status followed by its listed successors; the only transition out
of pending is to assigned; resolved is terminal, offering no transition; and
a null status defaults to pending. -/
theorem C4_dispatch_state_machine :
    (∀ s : DispatchStatus, getNextStatuses (some s) = s :: validTransitions s) ∧
    validTransitions DispatchStatus.pending = [DispatchStatus.assigned] ∧
    validTransitions DispatchStatus.resolved = [] ∧
    getNextStatuses (some DispatchStatus.resolved) = [DispatchStatus.resolved] ∧
    getNextStatuses none = DispatchStatus.pending :: validTransitions DispatchStatus.pending :=
  ⟨fun _ => rfl, rfl, rfl, rfl, rfl⟩

/-- Claim C5, as stated, is false: the authority dashboard client propagates
analysis and duplicate-check failures as thrown errors. -/
theorem C5_counterexample :
    authorityAnalyzeImage (FetchOutcome.httpError none) = Except.error "Analysis failed" ∧
    authorityCheckDuplicate (FetchOutcome.httpError (some "Invalid image URL"))
      = Except.error "Invalid image URL" := ⟨rfl, rfl⟩

/-- Claim C5 (amended): in the simulator client every external-service failure
during analysis or duplicate checking is recovered locally with the defined
fallback (permissive analysis default, fail-open duplicate result) and never
surfaces as an error; the authority dashboard client instead rethrows. -/
theorem C5_simulator_client_recovers (oa : FetchOutcome AnalysisResult)
    (od : FetchOutcome DupCheckResult)
    (ha : oa.isFailure = true) (hd : od.isFailure = true) :
    (simulatorAnalyzeImage oa).is_disaster = true ∧
    (simulatorAnalyzeImage oa).disaster_type = "unknown" ∧
    (simulatorCheckDuplicate od).is_duplicate = false ∧
    (simulatorCheckDuplicate od).message = "Could not check for duplicates" := by
  cases oa with
  | success b => simp [FetchOutcome.isFailure] at ha
  | httpError d =>
      cases od with
      | success b => simp [FetchOutcome.isFailure] at hd
      | httpError d2 => exact ⟨rfl, rfl, rfl, rfl⟩
      | netError m => exact ⟨rfl, rfl, rfl, rfl⟩
  | netError m =>
      cases od with
      | success b => simp [FetchOutcome.isFailure] at hd
      | httpError d2 => exact ⟨rfl, rfl, rfl, rfl⟩
      | netError m2 => exact ⟨rfl, rfl, rfl, rfl⟩

/-- Witness for the amended claim C5 at concrete failures. -/
theorem C5_simulator_client_recovers_witness :
    (FetchOutcome.netError "Failed to fetch" : FetchOutcome AnalysisResult).isFailure = true ∧
    (FetchOutcome.httpError none : FetchOutcome DupCheckResult).isFailure = true ∧
    ((simulatorAnalyzeImage (FetchOutcome.netError "Failed to fetch")).is_disaster = true ∧
     (simulatorAnalyzeImage (FetchOutcome.netError "Failed to fetch")).disaster_type = "unknown" ∧
     (simulatorCheckDuplicate (FetchOutcome.httpError none)).is_duplicate = false ∧
     (simulatorCheckDuplicate (FetchOutcome.httpError none)).message
        = "Could not check for duplicates") :=
  ⟨rfl, rfl,
   C5_simulator_client_recovers (FetchOutcome.netError "Failed to fetch")
     (FetchOutcome.httpError none) rfl rfl⟩

/-- Claim C6: when the caller does not supply a window duration, both clients
send a duplicate-check request whose time window is exactly 2 hours. -/
theorem C6_default_window_two_hours (url : String) :
    (simulatorCheckDuplicateRequest url none).hours_window = 2 ∧
    (authorityCheckDuplicateRequest url none).hours_window = 2 ∧
    hoursWindowDefault = 2 := ⟨rfl, rfl, rfl⟩

/-- Claim C7: with device coordinates present the resolver always returns
method device-gps with the maximal pipeline confidence, regardless of the
text candidates; conversely every device-gps result has maximal confidence,
and no resolution ever exceeds it. -/
theorem C7_device_gps_authoritative (geocode : String → Option GeocodeHit)
    (name : Option String) (r : GeoReport) (h : r.gps.isSome = true) :
    (resolveLocation geocode name r).method = LocMethod.deviceGps ∧
    (resolveLocation geocode name r).confidence = maxPipelineConfidence ∧
    (resolveLocation geocode name r).displayName = name ∧
    (∀ r2 : GeoReport, (resolveLocation geocode name r2).method = LocMethod.deviceGps →
        (resolveLocation geocode name r2).confidence = maxPipelineConfidence) ∧
    (∀ r2 : GeoReport, (resolveLocation geocode name r2).confidence ≤ maxPipelineConfidence) := by
  refine ⟨?_, ?_, ?_, ?_, ?_⟩
  · cases hg : r.gps with
    | none => rw [hg] at h; simp at h
    | some p => obtain ⟨la, lo⟩ := p; simp [resolveLocation, hg]
  · cases hg : r.gps with
    | none => rw [hg] at h; simp at h
    | some p => obtain ⟨la, lo⟩ := p; simp [resolveLocation, hg]
  · cases hg : r.gps with
    | none => rw [hg] at h; simp at h
    | some p => obtain ⟨la, lo⟩ := p; simp [resolveLocation, hg]
  · intro r2 hm
    cases hg2 : r2.gps with
    | some p => obtain ⟨la, lo⟩ := p; simp [resolveLocation, hg2]
    | none =>
        exfalso
        apply resolveFromCandidates_method_ne_gps geocode
          (sortDesc (fun c => c.specificity) r2.candidates)
        simpa [resolveLocation, hg2] using hm
  · intro r2
    cases hg2 : r2.gps with
    | some p => obtain ⟨la, lo⟩ := p; simp [resolveLocation, hg2]
    | none =>
        simp only [resolveLocation, hg2]
        exact resolveFromCandidates_conf_le geocode _

/-- Witness for claim C7 at a concrete report with device coordinates. -/
theorem C7_device_gps_authoritative_witness :
    exampleGpsReport.gps.isSome = true ∧
    (resolveLocation (fun _ => none) none exampleGpsReport).method = LocMethod.deviceGps ∧
    (resolveLocation (fun _ => none) none exampleGpsReport).confidence = maxPipelineConfidence :=
  ⟨rfl, (C7_device_gps_authoritative (fun _ => none) none exampleGpsReport rfl).1,
   (C7_device_gps_authoritative (fun _ => none) none exampleGpsReport rfl).2.1⟩

/-- Claim C8: the resolve-confirmation request is independent of the entered
resolution notes, its body carries exactly the three client fields and no
resolution_notes key, and applying it leaves the stored resolution_notes
unchanged. -/
theorem C8_resolution_notes_dropped (postId team notes notes2 : String)
    (row : DispatchRow) :
    confirmResolveRequest postId team notes = confirmResolveRequest postId team notes2 ∧
    (serializeUpdateDispatch (confirmResolveRequest postId team notes)).map Prod.fst
        = ["post_id", "dispatch_status", "assigned_team"] ∧
    "resolution_notes" ∉
        (serializeUpdateDispatch (confirmResolveRequest postId team notes)).map Prod.fst ∧
    (clientWire (confirmResolveRequest postId team notes)).resolution_notes = none ∧
    (applyUpdateDispatch row (clientWire (confirmResolveRequest postId team notes))).resolution_notes
        = row.resolution_notes := by
  refine ⟨rfl, rfl, ?_, rfl, rfl⟩
  intro hmem
  simp [serializeUpdateDispatch, confirmResolveRequest, updateDispatchBody] at hmem

/-- Claim C9: a video upload never invokes the duplicate check and inserts the
post directly with media_type video, while an image upload does invoke it. -/
theorem C9_video_bypasses_duplicate_check (url : String)
    (dupOutcome : FetchOutcome DupCheckResult) (label : Option String)
    (caption location : String) :
    (handleUpload MediaType.video url dupOutcome label caption location).fst = false ∧
    (handleUpload MediaType.video url dupOutcome label caption location).snd
        = UploadOutcome.inserted (insertPostData url label caption location MediaType.video) ∧
    (insertPostData url label caption location MediaType.video).media_type = "video" ∧
    (handleUpload MediaType.image url dupOutcome label caption location).fst = true :=
  ⟨rfl, rfl, rfl, rfl⟩

/-- Claim C10: every post returned by the map query has non-null inferred
coordinates, and its marker position is one of the defined coordinate pairs
handed to the markers and the bounds computation. -/
theorem C10_map_posts_have_coordinates (table : List PostRow) (filter : String)
    (p : PostRow) (h : p ∈ fetchGeolocatedPosts table filter) :
    p.inferred_latitude.isSome = true ∧ p.inferred_longitude.isSome = true ∧
    (p.inferred_latitude, p.inferred_longitude)
        ∈ markerPositions (fetchGeolocatedPosts table filter) := by
  have h1 : p ∈ sortDesc (fun q => q.created_at) (table.filter (geolocatedPred filter)) :=
    List.take_subset _ _ h
  have h2 : p ∈ table.filter (geolocatedPred filter) := (mem_sortDesc _ _ _).mp h1
  have h3 : geolocatedPred filter p = true := List.of_mem_filter h2
  simp only [geolocatedPred, Bool.and_eq_true] at h3
  exact ⟨h3.1.1, h3.1.2, List.mem_map_of_mem _ h⟩

/-- A geolocated post row as the map view reads it. -/
def examplePostRow : PostRow :=
  { id := 1, status := "urgent", inferred_latitude := some 13,
    inferred_longitude := some 78, created_at := 100 }

/-- A post row without inferred coordinates. -/
def ungeolocatedPostRow : PostRow :=
  { id := 2, status := "urgent", inferred_latitude := none,
    inferred_longitude := none, created_at := 200 }

/-- Witness for claim C10 at a concrete table holding one geolocated and one
ungeolocated row. -/
theorem C10_map_posts_have_coordinates_witness :
    examplePostRow ∈ fetchGeolocatedPosts [examplePostRow, ungeolocatedPostRow] "all" ∧
    examplePostRow.inferred_latitude.isSome = true ∧
    examplePostRow.inferred_longitude.isSome = true :=
  ⟨by decide,
   (C10_map_posts_have_coordinates [examplePostRow, ungeolocatedPostRow] "all"
      examplePostRow (by decide)).1,
   (C10_map_posts_have_coordinates [examplePostRow, ungeolocatedPostRow] "all"
      examplePostRow (by decide)).2.1⟩
